import Mathlib

/-!
Verification of the Railway service-status proxy (`src/index.tsx`).

The development shallowly embeds the one algorithmic component, the
paginated GraphQL traversal `getRailwayServiceInfo`, together with the
two protected HTTP route handlers.  Upstream responses are modelled as a
finite list of fetch results consumed in order; the `while (hasNextPage)`
loop becomes a structurally recursive function over that list that also
counts how many upstream calls were made.  JavaScript string operations
that the routes rely on (`String.prototype.replace` with a string
pattern, `String.prototype.includes`, `JSON.stringify` of the errors
payload) are embedded explicitly.
-/

namespace Railway

open scoped List

/-- `latestDeployment` node of a service instance (src/index.tsx lines 38-43). -/
structure Deployment where
  id : String
  status : String
  staticUrl : String
  deploymentStopped : Bool
  deriving Repr, DecidableEq

/-- A service-instance edge node: it may or may not carry a `latestDeployment`. -/
structure InstanceNode where
  latestDeployment : Option Deployment
  deriving Repr, DecidableEq

/-- A service node.  `serviceInstances = none` models a missing
`serviceInstances` container or a missing `edges` array (both are guarded
by the same `continue` in the source). -/
structure ServiceNode where
  id : String
  name : String
  serviceInstances : Option (List InstanceNode)
  deriving Repr, DecidableEq

/-- A project node.  `services = none` models `!project.services ||
!project.services.edges`. -/
structure ProjectNode where
  id : String
  name : String
  services : Option (List ServiceNode)
  deriving Repr, DecidableEq

/-- Pagination metadata.  The outer `Option` on each field models the
field being absent from the JSON (`undefined`); the inner `Option` on
`endCursor` models an explicit JSON `null` (`endCursor: string | null`). -/
structure PageInfo where
  hasNextPage : Option Bool
  endCursor : Option (Option String)
  deriving Repr, DecidableEq

/-- The `projects` object of a successful GraphQL response. -/
structure ProjectsPage where
  edges : List ProjectNode
  pageInfo : PageInfo
  deriving Repr, DecidableEq

/-- A GraphQL error object: a message and optional `locations`
(line/column pairs). -/
structure GraphQLError where
  message : String
  locations : Option (List (Nat × Nat))
  deriving Repr, DecidableEq

/-- The decoded GraphQL response body: optional `data`, optional
`errors`.  `errors = some []` models a present-but-empty errors array
(which is truthy in JavaScript and hence still triggers the throw). -/
structure GraphQLResponse where
  data : Option ProjectsPage
  errors : Option (List GraphQLError)
  deriving Repr, DecidableEq

/-- One upstream fetch outcome: either a transport-level failure
(`!response.ok`, carrying status, statusText and body text) or a decoded
response. -/
inductive FetchResult where
  | transportError (status : Nat) (statusText : String) (bodyText : String)
  | ok (resp : GraphQLResponse)
  deriving Repr, DecidableEq

/-- The flattened record pushed into `allServices` (interface
`RailwayService`, src/index.tsx lines 11-20). -/
structure RailwayService where
  projectId : String
  projectName : String
  serviceId : String
  serviceName : String
  deploymentId : String
  status : String
  staticUrl : String
  deploymentStopped : Bool
  deriving Repr, DecidableEq

/-- The two errors `getRailwayServiceInfo` can throw. -/
inductive TraversalError where
  | requestFailed (status : Nat) (statusText : String) (bodyText : String)
  | gqlErrors (errs : List GraphQLError)
  deriving Repr, DecidableEq

/-! ### JavaScript string operations used by the source -/

/-- Does `pat` occur as a contiguous sublist of `s`?  Embeds
`String.prototype.includes` at the character-list level. -/
def hasInfixChars (pat : List Char) : List Char → Bool
  | [] => pat.isEmpty
  | c :: t => pat.isPrefixOf (c :: t) || hasInfixChars pat t

/-- `s.includes(pat)` of JavaScript. -/
def strIncludes (s pat : String) : Bool :=
  hasInfixChars pat.toList s.toList

/-- Remove the first occurrence of `pat` from `s` (character-list
level); if `pat` does not occur, `s` is unchanged.  Embeds
`s.replace(pat, "")` with a string pattern, which replaces only the
first occurrence. -/
def removeFirstChars (pat : List Char) : List Char → List Char
  | [] => []
  | c :: t =>
    if pat.isPrefixOf (c :: t) then (c :: t).drop pat.length
    else c :: removeFirstChars pat t

/-- `s.replace(pat, "")` of JavaScript. -/
def strRemoveFirst (s pat : String) : String :=
  ⟨removeFirstChars pat.toList s.toList⟩

/-! ### JSON.stringify of the errors payload

`getRailwayServiceInfo` throws `new Error("GraphQL errors: " +
JSON.stringify(data.errors))`; the route handlers then dispatch on
whether the message contains the substring "GraphQL request failed", so
the stringified payload matters. -/

/-- JSON string escaping for one character, as `JSON.stringify` performs
it: quote and backslash are backslash-escaped, the control characters
with short forms use them, remaining control characters use a
`\u00XX` escape. -/
def jsonEscapeChar (c : Char) : List Char :=
  if c = '"' then ['\\', '"']
  else if c = '\\' then ['\\', '\\']
  else if c = '\n' then ['\\', 'n']
  else if c = '\r' then ['\\', 'r']
  else if c = '\t' then ['\\', 't']
  else if c.toNat = 8 then ['\\', 'b']
  else if c.toNat = 12 then ['\\', 'f']
  else if c.toNat < 32 then
    ['\\', 'u', '0', '0', (Nat.toDigits 16 c.toNat).headI,
      (Nat.toDigits 16 c.toNat).getLastD '0']
  else [c]

/-- `JSON.stringify` of a string value (quoted, escaped). -/
def jsonQuote (s : String) : String :=
  "\"" ++ ⟨s.toList.flatMap jsonEscapeChar⟩ ++ "\""

/-- `JSON.stringify` of one location object. -/
def stringifyLocation (loc : Nat × Nat) : String :=
  "\x7b\"line\":" ++ toString loc.1 ++ ",\"column\":" ++ toString loc.2 ++ "\x7d"

/-- `JSON.stringify` of one GraphQL error object; an absent `locations`
field is omitted entirely, as `JSON.stringify` drops `undefined`
properties. -/
def stringifyError (e : GraphQLError) : String :=
  "\x7b\"message\":" ++ jsonQuote e.message ++
    (match e.locations with
     | none => ""
     | some locs =>
       ",\"locations\":[" ++ String.intercalate "," (locs.map stringifyLocation) ++ "]") ++
  "\x7d"

/-- `JSON.stringify` of the errors array. -/
def stringifyErrors (errs : List GraphQLError) : String :=
  "[" ++ String.intercalate "," (errs.map stringifyError) ++ "]"

/-- The `message` of the thrown `Error`, as built by the source:
`"GraphQL request failed: ${status} ${statusText}, ${errorText}"` for a
transport failure, `"GraphQL errors: " + JSON.stringify(data.errors)`
for an application-level error payload. -/
def TraversalError.message : TraversalError → String
  | .requestFailed status statusText bodyText =>
    "GraphQL request failed: " ++ toString status ++ " " ++ statusText ++ ", " ++ bodyText
  | .gqlErrors errs => "GraphQL errors: " ++ stringifyErrors errs

/-! ### Flattening one page (src/index.tsx lines 147-177) -/

/-- The record pushed for one service of one project, if any: skip when
`serviceInstances` is missing or empty (the `continue`); look only at
`serviceInstances.edges[0].node.latestDeployment`; push exactly when
that deployment is present. -/
def serviceRecord (project : ProjectNode) (service : ServiceNode) :
    Option RailwayService :=
  match service.serviceInstances with
  | none => none
  | some [] => none
  | some (inst :: _) =>
    match inst.latestDeployment with
    | none => none
    | some deployment =>
      some { projectId := project.id
             projectName := project.name
             serviceId := service.id
             serviceName := service.name
             deploymentId := deployment.id
             status := deployment.status
             staticUrl := deployment.staticUrl
             deploymentStopped := deployment.deploymentStopped }

/-- The nested `for` loops over a page's project edges, accumulating
pushes onto `allServices` (which enters as `acc`). -/
def pageRecordsFrom (acc : List RailwayService) (projects : List ProjectNode) :
    List RailwayService :=
  projects.foldl
    (fun acc1 project =>
      match project.services with
      | none => acc1
      | some svcs =>
        svcs.foldl
          (fun acc2 service =>
            match serviceRecord project service with
            | none => acc2
            | some r => acc2 ++ [r])
          acc1)
    acc

/-! ### The pagination loop (src/index.tsx lines 76-188) -/

/-- The mutable loop state: `allServices`, `hasNextPage`, `afterCursor`. -/
structure LoopState where
  allServices : List RailwayService
  hasNextPage : Bool
  afterCursor : Option String
  deriving Repr, DecidableEq

/-- The initial state before the loop: empty accumulator, `hasNextPage =
true`, `afterCursor = null`. -/
def initState : LoopState :=
  { allServices := [], hasNextPage := true, afterCursor := none }

/-- One loop iteration's effect on the state, given the fetch outcome:

* `!response.ok` throws `GraphQL request failed: ...`;
* `data.errors` truthy throws `GraphQL errors: ...`;
* `data.data?.projects.edges` missing or empty sets `hasNextPage :=
  false` and `break`s (so the accumulator and cursor are untouched);
* otherwise the page is flattened onto `allServices` and
  `hasNextPage` / `afterCursor` are advanced from `pageInfo` with `??
  false` / `?? null` defaults. -/
def processPage (st : LoopState) : FetchResult → Except TraversalError LoopState
  | .transportError status statusText bodyText =>
    .error (.requestFailed status statusText bodyText)
  | .ok resp =>
    match resp.errors with
    | some errs => .error (.gqlErrors errs)
    | none =>
      match resp.data with
      | none => .ok { st with hasNextPage := false }
      | some page =>
        if page.edges.isEmpty then .ok { st with hasNextPage := false }
        else
          .ok { allServices := pageRecordsFrom st.allServices page.edges
                hasNextPage := page.pageInfo.hasNextPage.getD false
                afterCursor := page.pageInfo.endCursor.getD none }

deriving instance DecidableEq for Except

/-- Outcome of running the `while` loop against a finite list of
modelled upstream responses: `result = none` means the loop still wanted
another page when the modelled responses ran out; `calls` counts the
upstream fetches performed. -/
structure TraversalRun where
  result : Option (Except TraversalError (List RailwayService))
  calls : Nat
  deriving Repr, DecidableEq

/-- The `while (hasNextPage)` loop: each iteration consumes the next
modelled fetch result; a thrown error aborts the whole run (the `catch`
re-throws); when the flag is down the loop exits and `allServices` is
returned. -/
def runLoop : LoopState → List FetchResult → TraversalRun
  | st, [] =>
    if st.hasNextPage then { result := none, calls := 0 }
    else { result := some (.ok st.allServices), calls := 0 }
  | st, r :: rest =>
    if st.hasNextPage then
      match processPage st r with
      | .error e => { result := some (.error e), calls := 1 }
      | .ok st' =>
        let t := runLoop st' rest
        { result := t.result, calls := t.calls + 1 }
    else { result := some (.ok st.allServices), calls := 0 }

/-- `getRailwayServiceInfo`, as a function of the modelled sequence of
upstream responses (the token only selects which responses the upstream
produces, so it is not a parameter of the model). -/
def getRailwayServiceInfo (pages : List FetchResult) : TraversalRun :=
  runLoop initState pages

/-! ### The HTTP route layer (src/index.tsx lines 190-260) -/

/-- Bearer-token extraction in both handlers:
`c.req.header("Authorization")?.replace("Bearer ", "")` followed by the
falsy check `if (!apiToken)`.  Returns the usable token, or `none` when
the header is absent or the replacement result is the empty string. -/
def tokenOk (authHeader : Option String) : Option String :=
  match authHeader with
  | none => none
  | some h =>
    let t := strRemoveFirst h "Bearer "
    if t = "" then none else some t

/-- A response body: an `{"error": msg}` object, the JSON array of
records, or the `{serviceName, status}` object of the lookup route. -/
inductive Body where
  | errorMsg (msg : String)
  | records (rs : List RailwayService)
  | nameStatus (serviceName : String) (status : String)
  deriving Repr, DecidableEq

/-- An HTTP response: status code and body.  `c.json(body)` without an
explicit code uses 200. -/
structure HttpResponse where
  status : Nat
  body : Body
  deriving Repr, DecidableEq

/-- The shared `catch` block of both handlers: a message containing
"GraphQL request failed" maps to 502, anything else to 500. -/
def errorResponse (e : TraversalError) : HttpResponse :=
  if strIncludes e.message "GraphQL request failed" then
    { status := 502, body := .errorMsg "Failed to fetch from Railway API" }
  else
    { status := 500, body := .errorMsg "Internal Server Error" }

/-- `GET /api/services/status`.  Returns the response (or `none` when
the modelled upstream ran out of pages mid-loop) together with the
number of upstream calls made. -/
def listEndpoint (authHeader : Option String) (pages : List FetchResult) :
    Option HttpResponse × Nat :=
  match tokenOk authHeader with
  | none =>
    (some { status := 401, body := .errorMsg "Unauthorized: API token is required" }, 0)
  | some _ =>
    let t := getRailwayServiceInfo pages
    (match t.result with
     | none => none
     | some (.error e) => some (errorResponse e)
     | some (.ok services) => some { status := 200, body := .records services },
     t.calls)

/-- `GET /api/service/:staticUrl/status`.  The token check precedes the
`staticUrl` falsy check; on success the matched record (first by
`Array.prototype.find` on exact `staticUrl` equality) is reported; the
non-"SUCCESS" branch returns the same body with the default 200 status
because the 503 argument is commented out in the source. -/
def lookupEndpoint (authHeader : Option String) (staticUrl : String)
    (pages : List FetchResult) : Option HttpResponse × Nat :=
  match tokenOk authHeader with
  | none =>
    (some { status := 401, body := .errorMsg "Unauthorized: API token is required" }, 0)
  | some _ =>
    if staticUrl = "" then
      (some { status := 400, body := .errorMsg "Bad Request: staticUrl parameter is required" }, 0)
    else
      let t := getRailwayServiceInfo pages
      (match t.result with
       | none => none
       | some (.error e) => some (errorResponse e)
       | some (.ok services) =>
         match services.find? (fun s => s.staticUrl = staticUrl) with
         | none =>
           some { status := 404,
                  body := .errorMsg "Not Found: Service with provided staticUrl not found" }
         | some service =>
           if service.status ≠ "SUCCESS" then
             some { status := 200,
                    body := .nameStatus service.serviceName service.status }
           else
             some { status := 200,
                    body := .nameStatus service.serviceName service.status },
       t.calls)

/-! ### Derived notions used in the statements -/

/-- The records of one page as an ordered flatten: projects in page
order, services in project order, one optional record per service. -/
def flattenPage (projects : List ProjectNode) : List RailwayService :=
  projects.flatMap (fun p => (p.services.getD []).filterMap (serviceRecord p))

/-- The loop's stopping condition after successfully processing a
response: the data block is missing, the project page is empty, or the
page reports no next page (with the absent-field default `?? false`). -/
def stopsAfter (resp : GraphQLResponse) : Bool :=
  match resp.data with
  | none => true
  | some page => page.edges.isEmpty || !(page.pageInfo.hasNextPage.getD false)

/-- The error a fetch outcome makes the loop throw, if any. -/
def pageError : FetchResult → Option TraversalError
  | .transportError status statusText bodyText =>
    some (.requestFailed status statusText bodyText)
  | .ok resp => resp.errors.map .gqlErrors

/-- The (project, service) identity of a record. -/
def recordKey (r : RailwayService) : String × String :=
  (r.projectId, r.serviceId)

/-- The (project id, service id) pairs offered by one project node. -/
def servicePairs (p : ProjectNode) : List (String × String) :=
  (p.services.getD []).map (fun s => (p.id, s.id))

/-- The (project id, service id) pairs offered by one fetch outcome. -/
def fetchPairs : FetchResult → List (String × String)
  | .transportError _ _ _ => []
  | .ok resp =>
    match resp.data with
    | none => []
    | some page => page.edges.flatMap servicePairs

/-- All (project id, service id) pairs offered by a sequence of upstream
responses. -/
def allPairs (pages : List FetchResult) : List (String × String) :=
  pages.flatMap fetchPairs

/-! ### Helper lemmas -/

theorem toList_append (s t : String) : (s ++ t).toList = s.toList ++ t.toList := by
  cases s; cases t; rfl

theorem hasInfixChars_of_isPrefix (pat s : List Char) (h : pat <+: s) :
    hasInfixChars pat s = true := by
  cases s with
  | nil =>
    have hp : pat = [] := List.prefix_nil.mp h
    simp [hasInfixChars, hp]
  | cons c t =>
    simp only [hasInfixChars, Bool.or_eq_true, List.isPrefixOf_iff_prefix]
    exact Or.inl h

theorem strIncludes_of_toList_isPrefix (s pat : String) (h : pat.toList <+: s.toList) :
    strIncludes s pat = true :=
  hasInfixChars_of_isPrefix _ _ h

/-- A transport-failure message always contains the marker substring the
route handlers test for. -/
theorem requestFailed_message_includes (status : Nat) (statusText bodyText : String) :
    strIncludes (TraversalError.requestFailed status statusText bodyText).message
      "GraphQL request failed" = true := by
  apply strIncludes_of_toList_isPrefix
  simp only [TraversalError.message, toList_append, List.append_assoc]
  have h0 : ("GraphQL request failed: ").toList =
      "GraphQL request failed".toList ++ (": ").toList := rfl
  rw [h0, List.append_assoc]
  exact List.prefix_append _ _

/-- A fold that appends a per-element contribution equals the
accumulator followed by the flattened contributions. -/
theorem foldl_append_eq {α β : Type} (f : List β → α → List β) (g : α → List β)
    (hf : ∀ a x, f a x = a ++ g x) (l : List α) :
    ∀ acc, l.foldl f acc = acc ++ l.flatMap g := by
  induction l with
  | nil => intro acc; simp
  | cons x t ih =>
    intro acc
    simp only [List.foldl_cons, List.flatMap_cons, hf, ih, List.append_assoc]

theorem filterMap_eq_flatMap_toList {α β : Type} (f : α → Option β) (l : List α) :
    l.filterMap f = l.flatMap (fun a => (f a).toList) := by
  induction l with
  | nil => simp
  | cons x t ih =>
    cases h : f x <;> simp [List.filterMap_cons, h, ih]

/-- The nested push loops over a page equal the accumulator followed by
the ordered flatten of the page. -/
theorem pageRecordsFrom_eq (acc : List RailwayService) (projects : List ProjectNode) :
    pageRecordsFrom acc projects = acc ++ flattenPage projects := by
  refine foldl_append_eq _ _ (fun a p => ?_) projects acc
  cases hs : p.services with
  | none => simp [flattenPage, hs]
  | some svcs =>
    simp only [flattenPage, hs, Option.getD_some]
    rw [foldl_append_eq _ (fun s => (serviceRecord p s).toList)
      (fun a2 s => by cases h : serviceRecord p s <;> simp [h])]
    rw [filterMap_eq_flatMap_toList]

/-- The record built for a service carries that project's and service's
identifiers. -/
theorem serviceRecord_key (p : ProjectNode) (s : ServiceNode) (r : RailwayService)
    (h : serviceRecord p s = some r) : r.projectId = p.id ∧ r.serviceId = s.id := by
  unfold serviceRecord at h
  split at h
  · exact absurd h (by simp)
  · exact absurd h (by simp)
  · split at h
    · exact absurd h (by simp)
    · cases h; exact ⟨rfl, rfl⟩

theorem filterMap_key_sublist (p : ProjectNode) (svcs : List ServiceNode) :
    (svcs.filterMap (serviceRecord p)).map recordKey <+
      svcs.map (fun s => (p.id, s.id)) := by
  induction svcs with
  | nil => simp
  | cons s t ih =>
    simp only [List.filterMap_cons, List.map_cons]
    cases h : serviceRecord p s with
    | none => exact ih.cons _
    | some r =>
      simp only [List.map_cons]
      have hk := serviceRecord_key p s r h
      rw [show recordKey r = (p.id, s.id) from by simp [recordKey, hk.1, hk.2]]
      exact ih.cons₂ _

theorem flattenPage_key_sublist (projects : List ProjectNode) :
    (flattenPage projects).map recordKey <+ projects.flatMap servicePairs := by
  induction projects with
  | nil => simp [flattenPage]
  | cons p t ih =>
    have hcons : flattenPage (p :: t) =
        (p.services.getD []).filterMap (serviceRecord p) ++ flattenPage t := by
      simp [flattenPage]
    rw [hcons, List.map_append, List.flatMap_cons]
    have h1 : ((p.services.getD []).filterMap (serviceRecord p)).map recordKey <+
        servicePairs p := filterMap_key_sublist p (p.services.getD [])
    exact h1.append ih

/-- `runLoop` on an exhausted response list. -/
theorem runLoop_nil (st : LoopState) :
    runLoop st [] =
      if st.hasNextPage then { result := none, calls := 0 }
      else { result := some (.ok st.allServices), calls := 0 } := rfl

/-- `runLoop` on one more response. -/
theorem runLoop_cons (st : LoopState) (r : FetchResult) (rest : List FetchResult) :
    runLoop st (r :: rest) =
      if st.hasNextPage then
        match processPage st r with
        | .error e => { result := some (.error e), calls := 1 }
        | .ok st' =>
          { result := (runLoop st' rest).result, calls := (runLoop st' rest).calls + 1 }
      else { result := some (.ok st.allServices), calls := 0 } := rfl

theorem processPage_key_sublist (st st' : LoopState) (r : FetchResult)
    (h : processPage st r = .ok st') :
    st'.allServices.map recordKey <+ st.allServices.map recordKey ++ fetchPairs r := by
  cases r with
  | transportError a b c => exact absurd h (by simp [processPage])
  | ok resp =>
    cases he : resp.errors with
    | some errs => simp [processPage, he] at h
    | none =>
      cases hd : resp.data with
      | none =>
        simp only [processPage, he, hd] at h
        cases h
        simp [fetchPairs, hd]
      | some page =>
        cases hemp : page.edges.isEmpty with
        | true =>
          simp only [processPage, he, hd, hemp, if_true] at h
          cases h
          simp only [fetchPairs, hd]
          exact List.sublist_append_left _ _
        | false =>
          simp only [processPage, he, hd, hemp, Bool.false_eq_true, if_false] at h
          cases h
          simp only [pageRecordsFrom_eq, List.map_append, fetchPairs, hd]
          exact (List.Sublist.refl _).append (flattenPage_key_sublist page.edges)

theorem runLoop_key_sublist (pages : List FetchResult) :
    ∀ (st : LoopState) (recs : List RailwayService),
      (runLoop st pages).result = some (.ok recs) →
      recs.map recordKey <+ st.allServices.map recordKey ++ allPairs pages := by
  induction pages with
  | nil =>
    intro st recs h
    by_cases hn : st.hasNextPage
    · simp [runLoop_nil, hn] at h
    · simp only [runLoop_nil, hn, if_neg, Bool.false_eq_true, if_false,
        Option.some.injEq, Except.ok.injEq] at h
      subst h
      simp [allPairs]
  | cons r rest ih =>
    intro st recs h
    by_cases hn : st.hasNextPage
    · rw [runLoop_cons, if_pos hn] at h
      cases hp : processPage st r with
      | error e => rw [hp] at h; simp at h
      | ok st' =>
        rw [hp] at h
        simp only at h
        have h1 := ih st' recs h
        have h2 : st'.allServices.map recordKey ++ allPairs rest <+
            (st.allServices.map recordKey ++ fetchPairs r) ++ allPairs rest :=
          (processPage_key_sublist st st' r hp).append (List.Sublist.refl _)
        have h3 := h1.trans h2
        rw [List.append_assoc] at h3
        simpa [allPairs] using h3
    · rw [runLoop_cons, if_neg hn] at h
      simp only [Option.some.injEq, Except.ok.injEq] at h
      subst h
      exact List.sublist_append_left _ _

/-- A loop whose flag is already down performs no call and returns the
accumulator, whatever responses remain. -/
theorem runLoop_stopped (st : LoopState) (pages : List FetchResult)
    (h : st.hasNextPage = false) :
    runLoop st pages = { result := some (.ok st.allServices), calls := 0 } := by
  cases pages <;> simp [runLoop_nil, runLoop_cons, h]

/-- The shared catch block always produces an error-object body. -/
theorem errorResponse_isError (e : TraversalError) :
    ∃ code msg, errorResponse e = { status := code, body := .errorMsg msg } := by
  unfold errorResponse
  split
  · exact ⟨502, _, rfl⟩
  · exact ⟨500, _, rfl⟩

/-! ### The claims -/

/-- C1: for every upstream page, the traversal emits records by
iterating projects in page order and services in project order,
inspecting only the first service instance of each service: a record
combining the project's id/name, the service's id/name and the
deployment's id/status/staticUrl/stopped-flag is emitted if and only if
that first instance exists and has a recorded latest deployment;
services with no instances or whose first instance lacks a latest
deployment, and projects with no services, produce no record and no
error. -/
theorem c1_page_emission :
    (∀ (acc : List RailwayService) (projects : List ProjectNode),
       pageRecordsFrom acc projects = acc ++ flattenPage projects) ∧
    (∀ (p : ProjectNode) (s : ServiceNode),
       (∃ r, serviceRecord p s = some r) ↔
         ∃ inst rest d, s.serviceInstances = some (inst :: rest) ∧
           inst.latestDeployment = some d) ∧
    (∀ (p : ProjectNode) (s : ServiceNode) (inst : InstanceNode)
       (rest : List InstanceNode) (d : Deployment),
       s.serviceInstances = some (inst :: rest) → inst.latestDeployment = some d →
       serviceRecord p s = some
         { projectId := p.id, projectName := p.name, serviceId := s.id,
           serviceName := s.name, deploymentId := d.id, status := d.status,
           staticUrl := d.staticUrl, deploymentStopped := d.deploymentStopped }) ∧
    (∀ (acc : List RailwayService) (p : ProjectNode), p.services = none →
       pageRecordsFrom acc [p] = acc) := by
  refine ⟨pageRecordsFrom_eq, fun p s => ⟨?_, ?_⟩, fun p s inst rest d h1 h2 => ?_,
    fun acc p h => ?_⟩
  · rintro ⟨r, hr⟩
    unfold serviceRecord at hr
    split at hr
    · exact absurd hr (by simp)
    · exact absurd hr (by simp)
    · rename_i inst tail hsi
      split at hr
      · exact absurd hr (by simp)
      · rename_i d hd
        exact ⟨inst, tail, d, hsi, hd⟩
  · rintro ⟨inst, rest, d, h1, h2⟩
    exact ⟨{ projectId := p.id, projectName := p.name, serviceId := s.id,
             serviceName := s.name, deploymentId := d.id, status := d.status,
             staticUrl := d.staticUrl, deploymentStopped := d.deploymentStopped },
           by simp [serviceRecord, h1, h2]⟩
  · simp [serviceRecord, h1, h2]
  · simp [pageRecordsFrom_eq, flattenPage, h]

def c1Deployment : Deployment :=
  { id := "d1", status := "SUCCESS", staticUrl := "url", deploymentStopped := false }

def c1Project : ProjectNode := { id := "p1", name := "proj", services := none }

def c1Service : ServiceNode :=
  { id := "s1", name := "svc",
    serviceInstances := some [{ latestDeployment := some c1Deployment }] }

theorem c1_page_emission_witness :
    serviceRecord c1Project c1Service =
      some { projectId := "p1", projectName := "proj", serviceId := "s1",
             serviceName := "svc", deploymentId := "d1", status := "SUCCESS",
             staticUrl := "url", deploymentStopped := false } :=
  c1_page_emission.2.2.1 c1Project c1Service
    { latestDeployment := some c1Deployment } [] c1Deployment rfl rfl

/-- C2: the pagination loop stops exactly when the page's data block is
missing, the project page is empty, or the has-next-page flag (with its
absent-field default) is false; while a page is non-empty with the flag
set, the loop consumes the page and continues into the remaining
responses.  In particular an empty page ends the traversal even when
hasNextPage is set. -/
theorem c2_pagination_termination (st : LoopState) (resp : GraphQLResponse)
    (rest rest' : List FetchResult)
    (h1 : st.hasNextPage = true) (h2 : resp.errors = none) :
    (stopsAfter resp = true →
       (∃ recs, (runLoop st (.ok resp :: rest)).result = some (.ok recs)) ∧
       runLoop st (.ok resp :: rest) = runLoop st (.ok resp :: rest')) ∧
    (stopsAfter resp = false →
       ∃ st', processPage st (.ok resp) = .ok st' ∧ st'.hasNextPage = true ∧
         runLoop st (.ok resp :: rest) =
           { result := (runLoop st' rest).result,
             calls := (runLoop st' rest).calls + 1 }) := by
  constructor
  · intro hstop
    obtain ⟨st', hps, hfalse⟩ :
        ∃ st', processPage st (.ok resp) = .ok st' ∧ st'.hasNextPage = false := by
      cases hd : resp.data with
      | none =>
        exact ⟨{ st with hasNextPage := false }, by simp [processPage, h2, hd], rfl⟩
      | some page =>
        cases hemp : page.edges.isEmpty with
        | true =>
          exact ⟨{ st with hasNextPage := false },
                 by simp [processPage, h2, hd, hemp], rfl⟩
        | false =>
          have hnext : page.pageInfo.hasNextPage.getD false = false := by
            simpa [stopsAfter, hd, hemp] using hstop
          exact ⟨{ allServices := pageRecordsFrom st.allServices page.edges,
                   hasNextPage := page.pageInfo.hasNextPage.getD false,
                   afterCursor := page.pageInfo.endCursor.getD none },
                 by simp [processPage, h2, hd, hemp], hnext⟩
    have hrun : ∀ rs : List FetchResult,
        runLoop st (.ok resp :: rs) =
          { result := some (.ok st'.allServices), calls := 1 } := by
      intro rs
      rw [runLoop_cons, if_pos h1, hps]
      simp [runLoop_stopped st' rs hfalse]
    exact ⟨⟨st'.allServices, by rw [hrun]⟩, by rw [hrun, hrun]⟩
  · intro hstop
    cases hd : resp.data with
    | none => simp [stopsAfter, hd] at hstop
    | some page =>
      have hsplit : page.edges.isEmpty = false ∧
          page.pageInfo.hasNextPage.getD false = true := by
        constructor
        · cases hemp : page.edges.isEmpty with
          | true => exact absurd hstop (by simp [stopsAfter, hd, hemp])
          | false => rfl
        · cases hh : page.pageInfo.hasNextPage.getD false with
          | true => rfl
          | false => exact absurd hstop (by simp [stopsAfter, hd, hh])
      refine ⟨{ allServices := pageRecordsFrom st.allServices page.edges,
                hasNextPage := page.pageInfo.hasNextPage.getD false,
                afterCursor := page.pageInfo.endCursor.getD none },
              ?_, hsplit.2, ?_⟩
      · simp [processPage, h2, hd, hsplit.1]
      · rw [runLoop_cons, if_pos h1]
        rw [show processPage st (.ok resp) =
            .ok { allServices := pageRecordsFrom st.allServices page.edges,
                  hasNextPage := page.pageInfo.hasNextPage.getD false,
                  afterCursor := page.pageInfo.endCursor.getD none } from
          by simp [processPage, h2, hd, hsplit.1]]

def c2EmptyPage : ProjectsPage :=
  { edges := [], pageInfo := { hasNextPage := some true, endCursor := some (some "c") } }

def c2Resp : GraphQLResponse := { data := some c2EmptyPage, errors := none }

theorem c2_pagination_termination_witness :
    runLoop initState
        (FetchResult.ok c2Resp :: [FetchResult.transportError 500 "ISE" "x"]) =
      runLoop initState (FetchResult.ok c2Resp :: []) :=
  ((c2_pagination_termination initState c2Resp
      [FetchResult.transportError 500 "ISE" "x"] [] rfl rfl).1 rfl).2

/-- C3: a transport failure or an application-level errors payload at
any page aborts the whole traversal with that error, whatever records
the accumulator already holds, and both endpoints then answer with an
error-object body, never with a record list. -/
theorem c3_abort_discards :
    (∀ (st : LoopState) (r : FetchResult) (rest : List FetchResult)
       (e : TraversalError),
       st.hasNextPage = true → pageError r = some e →
       (runLoop st (r :: rest)).result = some (.error e)) ∧
    (∀ (auth : Option String) (tok : String) (pages : List FetchResult)
       (e : TraversalError),
       tokenOk auth = some tok →
       (getRailwayServiceInfo pages).result = some (.error e) →
       (∃ code msg,
          (listEndpoint auth pages).1 =
            some { status := code, body := .errorMsg msg }) ∧
       (∀ url, url ≠ "" →
          ∃ code msg,
            (lookupEndpoint auth url pages).1 =
              some { status := code, body := .errorMsg msg })) := by
  constructor
  · intro st r rest e h1 h2
    cases r with
    | transportError a b c =>
      simp only [pageError, Option.some.injEq] at h2
      subst h2
      simp [runLoop_cons, h1, processPage]
    | ok resp =>
      cases he : resp.errors with
      | none => simp [pageError, he] at h2
      | some errs =>
        have he2 : TraversalError.gqlErrors errs = e := by
          simpa [pageError, he] using h2
        subst he2
        simp [runLoop_cons, h1, processPage, he]
  · intro auth tok pages e htok herr
    obtain ⟨code, msg, hmap⟩ := errorResponse_isError e
    constructor
    · exact ⟨code, msg, by simp [listEndpoint, htok, herr, hmap]⟩
    · intro url hurl
      exact ⟨code, msg, by simp [lookupEndpoint, htok, hurl, herr, hmap]⟩

theorem c3_abort_discards_witness :
    (runLoop initState [FetchResult.transportError 500 "ISE" "x"]).result =
      some (.error (.requestFailed 500 "ISE" "x")) ∧
    ∃ code msg,
      (listEndpoint (some "Bearer t") [FetchResult.transportError 500 "ISE" "x"]).1 =
        some { status := code, body := .errorMsg msg } :=
  ⟨c3_abort_discards.1 initState (FetchResult.transportError 500 "ISE" "x") []
      (.requestFailed 500 "ISE" "x") rfl rfl,
   (c3_abort_discards.2 (some "Bearer t") "t"
      [FetchResult.transportError 500 "ISE" "x"] (.requestFailed 500 "ISE" "x")
      rfl rfl).1⟩

/-- C4 counterexample: a non-empty page that carries hasNextPage = true
but lacks the endCursor field does not default the has-more flag to
false and does not end the traversal, contradicting the claim that a
page lacking either pagination field defaults the has-more flag to false
and terminates. -/
def c4Project : ProjectNode := { id := "p", name := "pn", services := some [] }

/-- A non-empty page carrying hasNextPage = true whose endCursor field
is absent. -/
def c4RespCursorless : GraphQLResponse :=
  { data := some { edges := [c4Project],
                   pageInfo := { hasNextPage := some true, endCursor := none } },
    errors := none }

/-- A non-empty page whose hasNextPage field and endCursor field are
both absent. -/
def c4RespBare : GraphQLResponse :=
  { data := some { edges := [c4Project],
                   pageInfo := { hasNextPage := none, endCursor := none } },
    errors := none }

theorem c4_counterexample :
    processPage initState (.ok c4RespCursorless) =
      Except.ok { allServices := [], hasNextPage := true, afterCursor := none } ∧
    (runLoop initState [.ok c4RespCursorless, .ok c4RespCursorless]).calls = 2 := by
  exact ⟨rfl, rfl⟩

/-- C4 (amended): for every non-empty page, each absent pagination field
defaults independently and no error arises: an absent hasNextPage field
defaults the has-more flag to false, which terminates the traversal; an
absent endCursor field defaults the cursor to null. -/
theorem c4_defaults_amended (st : LoopState) (resp : GraphQLResponse)
    (page : ProjectsPage)
    (h2 : resp.errors = none) (hd : resp.data = some page)
    (hne : page.edges ≠ []) :
    ∃ st', processPage st (.ok resp) = .ok st' ∧
      (page.pageInfo.hasNextPage = none → st'.hasNextPage = false) ∧
      (page.pageInfo.endCursor = none → st'.afterCursor = none) ∧
      (page.pageInfo.hasNextPage = none →
        ∀ rest, runLoop st' rest =
          { result := some (.ok st'.allServices), calls := 0 }) := by
  have hemp : page.edges.isEmpty = false := by
    cases hE : page.edges with
    | nil => exact absurd hE hne
    | cons a t => rfl
  refine ⟨{ allServices := pageRecordsFrom st.allServices page.edges,
            hasNextPage := page.pageInfo.hasNextPage.getD false,
            afterCursor := page.pageInfo.endCursor.getD none }, ?_, ?_, ?_, ?_⟩
  · simp [processPage, h2, hd, hemp]
  · intro hnone; simp [hnone]
  · intro hnone; simp [hnone]
  · intro hnone rest
    apply runLoop_stopped
    simp [hnone]

theorem c4_defaults_amended_witness :
    ∃ st', processPage initState (.ok c4RespBare) = .ok st' ∧
      (({ hasNextPage := none, endCursor := none } : PageInfo).hasNextPage = none →
        st'.hasNextPage = false) ∧
      (({ hasNextPage := none, endCursor := none } : PageInfo).endCursor = none →
        st'.afterCursor = none) ∧
      (({ hasNextPage := none, endCursor := none } : PageInfo).hasNextPage = none →
        ∀ rest, runLoop st' rest =
          { result := some (.ok st'.allServices), calls := 0 }) :=
  c4_defaults_amended initState c4RespBare
    { edges := [c4Project], pageInfo := { hasNextPage := none, endCursor := none } }
    rfl rfl (by simp)


/-- C5: for every authorized request to the lookup endpoint where the
traversal succeeds, no record matching the path parameter yields the 404
not-found error body, while a match yields the matched record's
serviceName and status with the HTTP success code 200 regardless of the
status value (no distinct failure code for a non-"SUCCESS" status). -/
theorem c5_lookup_response (auth : Option String) (tok url : String)
    (pages : List FetchResult) (recs : List RailwayService)
    (htok : tokenOk auth = some tok) (hurl : url ≠ "")
    (hres : (getRailwayServiceInfo pages).result = some (.ok recs)) :
    ((∀ r ∈ recs, r.staticUrl ≠ url) →
       (lookupEndpoint auth url pages).1 =
         some { status := 404,
                body := .errorMsg "Not Found: Service with provided staticUrl not found" }) ∧
    (∀ svc, recs.find? (fun s => s.staticUrl = url) = some svc →
       (lookupEndpoint auth url pages).1 =
         some { status := 200, body := .nameStatus svc.serviceName svc.status }) := by
  constructor
  · intro hnone
    have hfind : recs.find? (fun s => s.staticUrl = url) = none := by
      simp only [List.find?_eq_none, decide_eq_true_eq]
      exact hnone
    simp [lookupEndpoint, htok, hurl, hres, hfind]
  · intro svc hfind
    simp [lookupEndpoint, htok, hurl, hres, hfind]

def c5Record : RailwayService :=
  { projectId := "p", projectName := "pn", serviceId := "s", serviceName := "sn",
    deploymentId := "d", status := "FAILED", staticUrl := "u2",
    deploymentStopped := true }

def c5Pages : List FetchResult :=
  [FetchResult.ok
    ⟨some ⟨[⟨"p", "pn",
             some [⟨"s", "sn", some [⟨some ⟨"d", "FAILED", "u2", true⟩⟩]⟩]⟩],
           ⟨some false, some none⟩⟩,
     none⟩]

theorem c5_lookup_response_witness :
    (lookupEndpoint (some "Bearer t") "u2" c5Pages).1 =
      some { status := 200, body := .nameStatus "sn" "FAILED" } :=
  (c5_lookup_response (some "Bearer t") "t" "u2" c5Pages [c5Record]
      rfl (by decide) rfl).2 c5Record rfl

/-- C6: an authorized request to either endpoint whose traversal fails
with a transport-level error (the thrown message indicates the GraphQL
request itself failed) is answered 502 with the upstream-failure error
body. -/
theorem c6_transport_maps_502 (auth : Option String) (tok : String)
    (pages : List FetchResult) (status : Nat) (statusText bodyText : String)
    (htok : tokenOk auth = some tok)
    (hres : (getRailwayServiceInfo pages).result =
      some (.error (.requestFailed status statusText bodyText))) :
    (listEndpoint auth pages).1 =
      some { status := 502, body := .errorMsg "Failed to fetch from Railway API" } ∧
    ∀ url, url ≠ "" → (lookupEndpoint auth url pages).1 =
      some { status := 502, body := .errorMsg "Failed to fetch from Railway API" } := by
  have hmap : errorResponse (.requestFailed status statusText bodyText) =
      { status := 502, body := .errorMsg "Failed to fetch from Railway API" } := by
    simp [errorResponse, requestFailed_message_includes]
  constructor
  · simp [listEndpoint, htok, hres, hmap]
  · intro url hurl
    simp [lookupEndpoint, htok, hurl, hres, hmap]

theorem c6_transport_maps_502_witness :
    (listEndpoint (some "Bearer t") [FetchResult.transportError 500 "ISE" "x"]).1 =
      some { status := 502, body := .errorMsg "Failed to fetch from Railway API" } :=
  (c6_transport_maps_502 (some "Bearer t") "t"
      [FetchResult.transportError 500 "ISE" "x"] 500 "ISE" "x" rfl rfl).1

/-- C7: a request to either protected endpoint that carries no usable
bearer token is answered 401 with the unauthorized error body and zero
upstream calls, whatever the upstream would have replied. -/
theorem c7_unauthorized (auth : Option String) (pages : List FetchResult)
    (h : tokenOk auth = none) :
    listEndpoint auth pages =
      (some { status := 401, body := .errorMsg "Unauthorized: API token is required" }, 0) ∧
    ∀ url, lookupEndpoint auth url pages =
      (some { status := 401, body := .errorMsg "Unauthorized: API token is required" }, 0) := by
  constructor
  · simp [listEndpoint, h]
  · intro url
    simp [lookupEndpoint, h]

theorem c7_unauthorized_witness :
    listEndpoint none [FetchResult.transportError 500 "ISE" "x"] =
      (some { status := 401, body := .errorMsg "Unauthorized: API token is required" }, 0) :=
  (c7_unauthorized none [FetchResult.transportError 500 "ISE" "x"] rfl).1

/-- An upstream response whose errors payload carries the marker text as
its message. -/
def c8AdversarialPages : List FetchResult :=
  [FetchResult.ok ⟨none, some [⟨"GraphQL request failed", none⟩]⟩]

/-- An upstream response with an unrelated errors payload. -/
def c8BenignPages : List FetchResult :=
  [FetchResult.ok ⟨none, some [⟨"boom", none⟩]⟩]

/-- C8 counterexample: an upstream errors payload whose message contains
the transport-failure marker text is stringified into the thrown
message, so the endpoint answers 502 rather than the claimed 500. -/
theorem c8_counterexample :
    (listEndpoint (some "Bearer t") c8AdversarialPages).1 =
      some { status := 502, body := .errorMsg "Failed to fetch from Railway API" } := by
  decide

/-- C8 (amended): an application-level errors payload aborts the
traversal with the GraphQL-errors error, and both endpoints map it to
the generic 500 internal-error response provided the stringified payload
does not itself contain the substring "GraphQL request failed";
otherwise the substring dispatch in the catch block yields the 502
transport-failure response instead. -/
theorem c8_gql_errors_amended :
    (∀ (st : LoopState) (resp : GraphQLResponse) (errs : List GraphQLError)
       (rest : List FetchResult),
       st.hasNextPage = true → resp.errors = some errs →
       (runLoop st (.ok resp :: rest)).result = some (.error (.gqlErrors errs))) ∧
    (∀ (auth : Option String) (tok : String) (pages : List FetchResult)
       (errs : List GraphQLError),
       tokenOk auth = some tok →
       (getRailwayServiceInfo pages).result = some (.error (.gqlErrors errs)) →
       strIncludes (TraversalError.gqlErrors errs).message "GraphQL request failed" = false →
       (listEndpoint auth pages).1 =
         some { status := 500, body := .errorMsg "Internal Server Error" } ∧
       ∀ url, url ≠ "" → (lookupEndpoint auth url pages).1 =
         some { status := 500, body := .errorMsg "Internal Server Error" }) := by
  constructor
  · intro st resp errs rest h1 he
    simp [runLoop_cons, h1, processPage, he]
  · intro auth tok pages errs htok hres hinc
    have hmap : errorResponse (.gqlErrors errs) =
        { status := 500, body := .errorMsg "Internal Server Error" } := by
      simp [errorResponse, hinc]
    constructor
    · simp [listEndpoint, htok, hres, hmap]
    · intro url hurl
      simp [lookupEndpoint, htok, hurl, hres, hmap]

theorem c8_gql_errors_amended_witness :
    (listEndpoint (some "Bearer t") c8BenignPages).1 =
      some { status := 500, body := .errorMsg "Internal Server Error" } :=
  (c8_gql_errors_amended.2 (some "Bearer t") "t" c8BenignPages
      [⟨"boom", none⟩] rfl rfl (by decide)).1

/-- C9: when the (project id, service id) combinations offered across
all upstream pages are pairwise distinct, a successful traversal yields
at most one record per (project, service) pair. -/
theorem c9_at_most_one_per_pair (pages : List FetchResult)
    (recs : List RailwayService)
    (hres : (getRailwayServiceInfo pages).result = some (.ok recs))
    (hnd : (allPairs pages).Nodup) :
    (recs.map recordKey).Nodup := by
  have h := runLoop_key_sublist pages initState recs hres
  simp only [initState, List.map_nil, List.nil_append] at h
  exact List.Nodup.sublist h hnd

def c9Pages : List FetchResult :=
  [FetchResult.ok
    ⟨some ⟨[⟨"p", "pn",
             some [⟨"s1", "n1", some [⟨some ⟨"d1", "SUCCESS", "u1", false⟩⟩]⟩,
                   ⟨"s2", "n2", some [⟨some ⟨"d2", "FAILED", "u2", true⟩⟩]⟩]⟩],
           ⟨some false, some none⟩⟩,
     none⟩]

theorem c9_at_most_one_per_pair_witness :
    (List.map recordKey
      [{ projectId := "p", projectName := "pn", serviceId := "s1", serviceName := "n1",
         deploymentId := "d1", status := "SUCCESS", staticUrl := "u1",
         deploymentStopped := false },
       { projectId := "p", projectName := "pn", serviceId := "s2", serviceName := "n2",
         deploymentId := "d2", status := "FAILED", staticUrl := "u2",
         deploymentStopped := true }]).Nodup :=
  c9_at_most_one_per_pair c9Pages _ rfl (by decide)

/-- C10: a present authorization header whose value becomes empty after
removing the first occurrence of "Bearer " is treated as a missing token
(401, no upstream call); any header value that stays non-empty after the
single replacement is accepted as the token, whether or not it carried
the prefix. -/
theorem c10_token_extraction (h : String) :
    (strRemoveFirst h "Bearer " = "" →
       ∀ (pages : List FetchResult),
         listEndpoint (some h) pages =
           (some { status := 401,
                   body := .errorMsg "Unauthorized: API token is required" }, 0) ∧
         ∀ url, lookupEndpoint (some h) url pages =
           (some { status := 401,
                   body := .errorMsg "Unauthorized: API token is required" }, 0)) ∧
    (strRemoveFirst h "Bearer " ≠ "" →
       tokenOk (some h) = some (strRemoveFirst h "Bearer ")) := by
  constructor
  · intro hempty pages
    have htok : tokenOk (some h) = none := by simp [tokenOk, hempty]
    constructor
    · simp [listEndpoint, htok]
    · intro url
      simp [lookupEndpoint, htok]
  · intro hne
    simp [tokenOk, hne]

theorem c10_token_extraction_witness :
    listEndpoint (some "Bearer ") [FetchResult.transportError 500 "ISE" "x"] =
      (some { status := 401, body := .errorMsg "Unauthorized: API token is required" }, 0) ∧
    tokenOk (some "abc") = some "abc" :=
  ⟨((c10_token_extraction "Bearer ").1 rfl
      [FetchResult.transportError 500 "ISE" "x"]).1,
   (c10_token_extraction "abc").2 (by decide)⟩

end Railway
